import Mathlib

/-!
Verification development for the HERO sensor-ingestion and eye-tracking
calibration core.

The repository ships the persistence schema (`src/database/models/sensors.py`)
and the configuration module (`src/config/config.py`).  The schema of each
table is embedded below as data (column name, SQL type, nullability,
primary-key / unique markers, column default), together with the standard SQL
insert semantics these declarations induce: an insert materialises the row by
applying column defaults, and is rejected when a required column is null, when
the primary-key tuple collides with a stored row, or when a unique column
collides with a stored row.

The behavioural components that the specification describes (sample
classifier, calibration engine, validation engine) have no implementation
inside the repository; they are modelled from the specification where a claim
needs them, and each such definition carries a doc comment saying so.
-/

/-- SQL column types appearing in the schema source. -/
inductive ColType where
  | DateTimeTZ
  | UUIDT
  | FloatT
  | IntegerT
  | StringT
  | BooleanT
  | JSONBT
  | TextT
deriving DecidableEq, Repr

/-- A stored SQL value.  JSONB payloads in this schema are lists of numbers
(coefficient vectors) or lists of numeric vectors (calibration features), so
those two shapes are carried directly. -/
inductive Value where
  | null
  | i (v : Int)
  | q (v : ℚ)
  | s (v : String)
  | b (v : Bool)
  | uuidv (v : Nat)
  | jlist (vs : List ℚ)
  | jmat (vs : List (List ℚ))
deriving DecidableEq, Repr

/-- A column default: either a constant value (`default=True`, `default=2`)
or an auto-generated UUID (`default=uuid.uuid4`). -/
inductive DefaultSpec where
  | const (v : Value)
  | autoUuid
deriving DecidableEq, Repr

/-- One column declaration, mirroring the keyword arguments of the
SQLAlchemy `Column(...)` calls in the source (unspecified keyword
arguments keep SQLAlchemy's defaults: nullable, not a primary key,
not unique, no default). -/
structure Column where
  name : String
  ctype : ColType
  nullable : Bool := true
  primary_key : Bool := false
  unique : Bool := false
  default : Option DefaultSpec := none
deriving DecidableEq, Repr

/-- One table declaration: `__tablename__` plus its column list. -/
structure TableSchema where
  tablename : String
  columns : List Column
deriving DecidableEq, Repr

/-- `sensor_accelerometer` (src/database/models/sensors.py, SensorAccelerometer). -/
def SensorAccelerometer : TableSchema :=
  { tablename := "sensor_accelerometer"
    columns :=
      [ { name := "time", ctype := .DateTimeTZ, nullable := false, primary_key := true }
      , { name := "session_id", ctype := .UUIDT, nullable := false, primary_key := true }
      , { name := "x", ctype := .FloatT, nullable := false }
      , { name := "y", ctype := .FloatT, nullable := false }
      , { name := "z", ctype := .FloatT, nullable := false }
      , { name := "quality_score", ctype := .FloatT }
      , { name := "is_valid", ctype := .BooleanT, default := some (.const (.b true)) } ] }

/-- `sensor_gyroscope` (src/database/models/sensors.py, SensorGyroscope). -/
def SensorGyroscope : TableSchema :=
  { tablename := "sensor_gyroscope"
    columns :=
      [ { name := "time", ctype := .DateTimeTZ, nullable := false, primary_key := true }
      , { name := "session_id", ctype := .UUIDT, nullable := false, primary_key := true }
      , { name := "x", ctype := .FloatT, nullable := false }
      , { name := "y", ctype := .FloatT, nullable := false }
      , { name := "z", ctype := .FloatT, nullable := false }
      , { name := "quality_score", ctype := .FloatT }
      , { name := "is_valid", ctype := .BooleanT, default := some (.const (.b true)) } ] }

/-- `sensor_eeg` (src/database/models/sensors.py, SensorEEG). -/
def SensorEEG : TableSchema :=
  { tablename := "sensor_eeg"
    columns :=
      [ { name := "time", ctype := .DateTimeTZ, nullable := false, primary_key := true }
      , { name := "session_id", ctype := .UUIDT, nullable := false, primary_key := true }
      , { name := "channel_1", ctype := .FloatT, nullable := false }
      , { name := "channel_2", ctype := .FloatT, nullable := false }
      , { name := "channel_3", ctype := .FloatT, nullable := false }
      , { name := "channel_4", ctype := .FloatT, nullable := false }
      , { name := "quality_flag", ctype := .IntegerT }
      , { name := "is_valid", ctype := .BooleanT, default := some (.const (.b true)) } ] }

/-- `sensor_eye_tracking` (src/database/models/sensors.py, SensorEyeTracking). -/
def SensorEyeTracking : TableSchema :=
  { tablename := "sensor_eye_tracking"
    columns :=
      [ { name := "time", ctype := .DateTimeTZ, nullable := false, primary_key := true }
      , { name := "session_id", ctype := .UUIDT, nullable := false, primary_key := true }
      , { name := "gaze_x", ctype := .FloatT, nullable := false }
      , { name := "gaze_y", ctype := .FloatT, nullable := false }
      , { name := "raw_yaw", ctype := .FloatT }
      , { name := "raw_pitch", ctype := .FloatT }
      , { name := "confidence", ctype := .FloatT }
      , { name := "is_valid", ctype := .BooleanT, default := some (.const (.b true)) } ] }

/-- `sensor_heart_rate` (src/database/models/sensors.py, SensorHeartRate). -/
def SensorHeartRate : TableSchema :=
  { tablename := "sensor_heart_rate"
    columns :=
      [ { name := "time", ctype := .DateTimeTZ, nullable := false, primary_key := true }
      , { name := "session_id", ctype := .UUIDT, nullable := false, primary_key := true }
      , { name := "raw_signal", ctype := .FloatT, nullable := false }
      , { name := "quality", ctype := .IntegerT }
      , { name := "is_valid", ctype := .BooleanT, default := some (.const (.b true)) } ] }

/-- `sensor_oximeter` (src/database/models/sensors.py, SensorOximeter). -/
def SensorOximeter : TableSchema :=
  { tablename := "sensor_oximeter"
    columns :=
      [ { name := "time", ctype := .DateTimeTZ, nullable := false, primary_key := true }
      , { name := "session_id", ctype := .UUIDT, nullable := false, primary_key := true }
      , { name := "red_signal", ctype := .FloatT, nullable := false }
      , { name := "infrared_signal", ctype := .FloatT, nullable := false }
      , { name := "is_valid", ctype := .BooleanT, default := some (.const (.b true)) } ] }

/-- `calibration_eye_tracking` (src/database/models/sensors.py,
CalibrationEyeTracking). -/
def CalibrationEyeTracking : TableSchema :=
  { tablename := "calibration_eye_tracking"
    columns :=
      [ { name := "calibration_id", ctype := .UUIDT, primary_key := true, default := some .autoUuid }
      , { name := "session_id", ctype := .UUIDT, nullable := false, unique := true }
      , { name := "timestamp", ctype := .DateTimeTZ, nullable := false }
      , { name := "coeff_x", ctype := .JSONBT, nullable := false }
      , { name := "coeff_y", ctype := .JSONBT, nullable := false }
      , { name := "intercept_x", ctype := .FloatT, nullable := false }
      , { name := "intercept_y", ctype := .FloatT, nullable := false }
      , { name := "poly_degree", ctype := .IntegerT, nullable := false, default := some (.const (.i 2)) }
      , { name := "calib_features", ctype := .JSONBT }
      , { name := "calib_targets", ctype := .JSONBT }
      , { name := "validation_mean_deg", ctype := .FloatT }
      , { name := "validation_std_deg", ctype := .FloatT }
      , { name := "validation_rating", ctype := .StringT }
      , { name := "notes", ctype := .StringT } ] }

/-- `metrics_processed` (src/database/models/sensors.py, MetricsProcessed). -/
def MetricsProcessed : TableSchema :=
  { tablename := "metrics_processed"
    columns :=
      [ { name := "time", ctype := .DateTimeTZ, nullable := false, primary_key := true }
      , { name := "session_id", ctype := .UUIDT, nullable := false, primary_key := true }
      , { name := "metric_type", ctype := .StringT, nullable := false, primary_key := true }
      , { name := "value", ctype := .FloatT, nullable := false }
      , { name := "confidence", ctype := .FloatT }
      , { name := "computation_method", ctype := .StringT }
      , { name := "is_valid", ctype := .BooleanT, default := some (.const (.b true)) } ] }

/-- A row is an association list from column names to values (the shape a
Python `dict` of keyword arguments takes, and the shape of a stored row). -/
abbrev Row : Type := List (String × Value)

/-- Association-list lookup, the meaning of Python `dict.get(key)`:
the value at the first matching key, or `none`. -/
def dictGet {α : Type} : List (String × α) → String → Option α
  | [], _ => none
  | (k, v) :: rest, n => if k = n then some v else dictGet rest n

/-- The value stored under a column name, with SQL NULL for an absent key. -/
def valueAt (r : Row) (n : String) : Value :=
  (dictGet r n).getD .null

/-- A column is required when it is a primary key or declared NOT NULL. -/
def requiredCol (c : Column) : Bool :=
  c.primary_key || !c.nullable

/-- The value an insert stores in column `c` for supplied fields `r`:
the supplied value if present, otherwise the column default
(`fresh` feeds the auto-generated UUID default). -/
def fieldValue (c : Column) (r : Row) (fresh : Nat) : Value :=
  match dictGet r c.name with
  | some v => v
  | none =>
    match c.default with
    | some (.const v) => v
    | some .autoUuid => .uuidv fresh
    | none => .null

/-- Materialise a full stored row from the supplied fields by applying
column defaults, one entry per declared column. -/
def materialize (t : TableSchema) (r : Row) (fresh : Nat) : Row :=
  t.columns.map (fun c => (c.name, fieldValue c r fresh))

/-- NOT NULL violation: some required column of the materialised row is null. -/
def violatesNotNull (t : TableSchema) (m : Row) : Bool :=
  t.columns.any (fun c => requiredCol c && decide (valueAt m c.name = Value.null))

/-- The names of the primary-key columns, in declaration order. -/
def pkCols (t : TableSchema) : List String :=
  (t.columns.filter (fun c => c.primary_key)).map (fun c => c.name)

/-- The primary-key tuple of a row. -/
def pkOf (t : TableSchema) (r : Row) : List Value :=
  (pkCols t).map (fun n => valueAt r n)

/-- Primary-key conflict: a stored row already has this primary-key tuple. -/
def pkConflict (t : TableSchema) (stored : List Row) (m : Row) : Bool :=
  stored.any (fun sr => decide (pkOf t sr = pkOf t m))

/-- Unique-column conflict: some UNIQUE column holds a non-null value that a
stored row already holds (SQL unique constraints ignore NULLs). -/
def uniqueConflict (t : TableSchema) (stored : List Row) (m : Row) : Bool :=
  t.columns.any (fun c =>
    c.unique && !(decide (valueAt m c.name = Value.null)) &&
      stored.any (fun sr => decide (valueAt sr c.name = valueAt m c.name)))

/-- SQL insert against the declared constraints: materialise the row, reject
it on a NOT NULL violation, a duplicate primary key, or a duplicate value in
a UNIQUE column; otherwise append it to the stored rows. -/
def insertRow (t : TableSchema) (stored : List Row) (r : Row) (fresh : Nat) :
    Option (List Row) :=
  if violatesNotNull t (materialize t r fresh) ||
      pkConflict t stored (materialize t r fresh) ||
      uniqueConflict t stored (materialize t r fresh) then
    none
  else
    some (stored ++ [materialize t r fresh])

/-- The stored states of a table reachable through successful inserts. -/
inductive Stored (t : TableSchema) : List Row → Prop where
  | empty : Stored t []
  | insert {s s' : List Row} {r : Row} {fresh : Nat} :
      Stored t s → insertRow t s r fresh = some s' → Stored t s'

/-!
Configuration module (src/config/config.py).  Python float literals are
embedded as the rationals they denote in the source text; dictionaries are
association lists in declaration order.
-/

/-- `SENSOR_RATES` (src/config/config.py): sampling rate in Hz per sensor. -/
def SENSOR_RATES : List (String × Nat) :=
  [ ("accelerometer", 100)
  , ("gyroscope", 100)
  , ("eeg", 250)
  , ("eye_tracking", 60)
  , ("heart_rate", 100)
  , ("oximeter", 100) ]

/-- A value of a per-sensor configuration dictionary entry. -/
inductive ConfigVal where
  | b (v : Bool)
  | n (v : Nat)
  | q (v : ℚ)
  | s (v : String)
  | pair (a c : Nat)
deriving DecidableEq, Repr

/-- `SENSOR_CONFIG` (src/config/config.py): per-sensor settings. -/
def SENSOR_CONFIG : List (String × List (String × ConfigVal)) :=
  [ ("accelerometer",
      [ ("enabled", .b true), ("range", .s "±8g"), ("units", .s "m/s²") ])
  , ("gyroscope",
      [ ("enabled", .b true), ("range", .s "±500°/s"), ("units", .s "deg/s") ])
  , ("eeg",
      [ ("enabled", .b true), ("channels", .n 4), ("units", .s "µV")
      , ("power_supply_voltage", .q (33/10)) ])
  , ("eye_tracking",
      [ ("enabled", .b true), ("units", .s "pixels")
      , ("confidence_threshold", .q (7/10))
      , ("screen_resolution", .pair 1920 1080)
      , ("coordinate_system", .s "top_left_origin") ])
  , ("heart_rate",
      [ ("enabled", .b true), ("units", .s "arbitrary") ])
  , ("oximeter",
      [ ("enabled", .b true), ("units", .s "arbitrary") ]) ]

/-- `QUALITY_THRESHOLDS` (src/config/config.py): the data-quality threshold
table consumed by sample classification. -/
def QUALITY_THRESHOLDS : List (String × ℚ) :=
  [ ("accelerometer_min", 1/2)
  , ("gyroscope_min", 1/2)
  , ("eeg_max_artifact_percent", 30)
  , ("eye_tracking_min_confidence", 3/5)
  , ("heart_rate_min_quality", 1) ]

/-- `get_sensor_rate` (src/config/config.py): `SENSOR_RATES.get(sensor_name)`. -/
def get_sensor_rate (sensor_name : String) : Option Nat :=
  dictGet SENSOR_RATES sensor_name

/-- `get_sensor_config` (src/config/config.py):
`SENSOR_CONFIG.get(sensor_name, {})`. -/
def get_sensor_config (sensor_name : String) : List (String × ConfigVal) :=
  (dictGet SENSOR_CONFIG sensor_name).getD []

/-- `is_sensor_enabled` (src/config/config.py): the `enabled` entry of the
sensor's configuration, or `False` when absent. -/
def is_sensor_enabled (sensor_name : String) : Bool :=
  match dictGet (get_sensor_config sensor_name) "enabled" with
  | some (.b v) => v
  | _ => false

/-!
Sample Classifier.  No implementation exists under src/; the component is
modelled from the specification against the threshold table of
src/config/config.py.
-/

/-- The sensor types the classifier's threshold table covers. -/
inductive SensorType where
  | accelerometer
  | gyroscope
  | eeg
  | eye_tracking
  | heart_rate
deriving DecidableEq, Repr

/-- The `QUALITY_THRESHOLDS` key holding a sensor type's threshold. -/
def thresholdKey : SensorType → String
  | .accelerometer => "accelerometer_min"
  | .gyroscope => "gyroscope_min"
  | .eeg => "eeg_max_artifact_percent"
  | .eye_tracking => "eye_tracking_min_confidence"
  | .heart_rate => "heart_rate_min_quality"

/-- The configured threshold of a sensor type, read from `QUALITY_THRESHOLDS`. -/
def thresholdOf (t : SensorType) : ℚ :=
  (dictGet QUALITY_THRESHOLDS (thresholdKey t)).getD 0

/-- Modelled from the spec: `classify(sensorType, fields) -> (qualityScore,
isValid)` of the Sample Classifier, which is absent from src/.  A pure, total
function of the reading's quality metric and the configured threshold table:
the EEG threshold is a maximum artifact percentage, every other threshold is
a minimum, the comparison is inclusive, and the returned score is always the
measured value (out-of-range input is marked invalid, never rejected). -/
def classify (t : SensorType) (value : ℚ) : ℚ × Bool :=
  match t with
  | .eeg => (value, decide (value ≤ thresholdOf .eeg))
  | t => (value, decide (thresholdOf t ≤ value))

/-!
Calibration Engine and Validation Engine.  No implementation exists under
src/; both are modelled from the specification (and the column comments of
`calibration_eye_tracking`), over exact rational arithmetic.
-/

/-- One calibration point: the 4-component raw iris feature vector
`[lx, ly, rx, ry]` and the target screen coordinate `[tx, ty]` in pixels. -/
structure CalibPoint where
  lx : ℚ
  ly : ℚ
  rx : ℚ
  ry : ℚ
  tx : ℚ
  ty : ℚ
deriving DecidableEq, Repr

/-- A fitted calibration model, mirroring the required columns of
`calibration_eye_tracking`. -/
structure CalibrationModel where
  coeff_x : List ℚ
  coeff_y : List ℚ
  intercept_x : ℚ
  intercept_y : ℚ
  poly_degree : Nat
  calib_features : List (List ℚ)
  calib_targets : List (List ℚ)
deriving DecidableEq, Repr

/-- Calibration failure: too few points, or a singular regularized system. -/
inductive CalibrationError where
  | insufficientPoints
  | singularSystem
deriving DecidableEq, Repr

/-- The calibration grid is 3×3: fewer than 9 points is insufficient. -/
def MIN_CALIBRATION_POINTS : Nat := 9

/-- The small fixed ridge-regularization constant λ. -/
def RIDGE_LAMBDA : ℚ := 1/1000

/-- The products `xi * xj` with `i ≤ j` of a feature list, in the order
produced by a degree-2 polynomial feature transform. -/
def pairProducts : List ℚ → List ℚ
  | [] => []
  | x :: xs => (x :: xs).map (fun y => x * y) ++ pairProducts xs

/-- Modelled from the spec: the degree-2 polynomial feature expansion of the
Calibration Engine — the constant 1, the linear terms, and the
pairwise/quadratic products of the raw features. -/
def polyFeatures2 (v : List ℚ) : List ℚ :=
  1 :: v ++ pairProducts v

/-- Scalar product of two numeric lists (truncating at the shorter one). -/
def dotQ (a c : List ℚ) : ℚ :=
  (List.zipWith (fun x y => x * y) a c).foldl (fun acc z => acc + z) 0

/-- Add λ to the diagonal of a square matrix given as a list of rows. -/
def addLambdaI (M : List (List ℚ)) (lam : ℚ) : List (List ℚ) :=
  List.zipWith
    (fun i row => List.zipWith (fun j a => if i = j then a + lam else a)
      (List.range row.length) row)
    (List.range M.length) M

/-- Move a row with a non-zero leading entry to the front, if one exists. -/
def gaussPivot : List (List ℚ) → Option (List ℚ × List (List ℚ))
  | [] => none
  | row :: rest =>
    if row.headD 0 ≠ 0 then some (row, rest)
    else
      match gaussPivot rest with
      | some (p, others) => some (p, row :: others)
      | none => none

/-- Back-substitution step: the solved value of the pivot variable from the
normalized pivot row (trailing entry the right-hand side) and the already
solved tail variables. -/
def backRow (pnorm : List ℚ) (xs : List ℚ) : ℚ :=
  pnorm.getLastD 0 - dotQ pnorm xs

/-- Gaussian elimination with partial pivoting on an augmented system of
`n` unknowns; `none` when the system is singular.  Deterministic: a pure
function of the input rows. -/
def gaussSolve : Nat → List (List ℚ) → Option (List ℚ)
  | 0, _ => some []
  | Nat.succ n, rows =>
    (gaussPivot rows).bind (fun pr =>
      let piv := pr.1.headD 0
      let pnorm := pr.1.tail.map (fun a => a / piv)
      let reduced := pr.2.map (fun row =>
        List.zipWith (fun a c => a - row.headD 0 * c) row.tail pnorm)
      (gaussSolve n reduced).map (fun xs => backRow pnorm xs :: xs))

/-- The transposed design matrix Aᵀ: row `j` holds feature `j` of every
expanded calibration point (15 features per point). -/
def designMatrixT (points : List CalibPoint) : List (List ℚ) :=
  (List.range 15).map (fun j =>
    (points.map (fun p => polyFeatures2 [p.lx, p.ly, p.rx, p.ry])).map
      (fun row => row.getD j 0))

/-- The augmented ridge-regularized normal-equation system
`(AᵀA + λI) | Aᵀb` for one target axis. -/
def ridgeSystem (points : List CalibPoint) (target : CalibPoint → ℚ) :
    List (List ℚ) :=
  let At := designMatrixT points
  let M := addLambdaI (At.map (fun ri => At.map (fun rj => dotQ ri rj))) RIDGE_LAMBDA
  let bv := At.map (fun ri => dotQ ri (points.map target))
  List.zipWith (fun row c => row ++ [c]) M bv

/-- Modelled from the spec: `fitCalibration` of the Calibration Engine,
which is absent from src/.  Rejects fewer than the configured minimum number
of points; otherwise expands each 4-component raw feature vector into the
degree-2 polynomial feature space and solves the two ridge-regularized
normal-equation systems `(AᵀA + λI) c = Aᵀb`, one per screen axis, failing
when the regularized system is singular.  The constant feature carries the
intercept role, so the stored intercepts are 0. -/
def fitCalibration (points : List CalibPoint) :
    Except CalibrationError CalibrationModel :=
  if points.length < MIN_CALIBRATION_POINTS then
    .error .insufficientPoints
  else
    match gaussSolve 15 (ridgeSystem points (fun p => p.tx)),
          gaussSolve 15 (ridgeSystem points (fun p => p.ty)) with
    | some cx, some cy =>
      .ok
        { coeff_x := cx
          coeff_y := cy
          intercept_x := 0
          intercept_y := 0
          poly_degree := 2
          calib_features := points.map (fun p => [p.lx, p.ly, p.rx, p.ry])
          calib_targets := points.map (fun p => [p.tx, p.ty]) }
    | _, _ => .error .singularSystem

/-- Modelled from the spec: persisting a fit result — a model is stored only
when the fit succeeds; on `CalibrationError` the store is left untouched. -/
def fitAndStore (store : List CalibrationModel) (points : List CalibPoint) :
    List CalibrationModel :=
  match fitCalibration points with
  | .ok m => store ++ [m]
  | .error _ => store

/-- The validation summary rating. -/
inductive Rating where
  | GOOD
  | ACCEPTABLE
  | POOR
deriving DecidableEq, Repr

/-- Modelled from the spec (and the `validation_rating` column comment):
the Validation Engine's rating of a mean angular error in degrees —
mean < 1.0° is GOOD, mean < 2.0° is ACCEPTABLE, otherwise POOR. -/
def rateMeanError (mean : ℚ) : Rating :=
  if mean < 1 then .GOOD
  else if mean < 2 then .ACCEPTABLE
  else .POOR

/-- Overwrite the value of one field of a row, leaving every other field
unchanged. -/
def setField (r : Row) (n : String) (v : Value) : Row :=
  r.map (fun p => if p.1 = n then (p.1, v) else p)

/-- Modelled from the spec: the validation pass appending validation
statistics to a stored calibration row (`GazeSystem._save_validation()` is
absent from src/).  Only the three validation columns of the row owned by
the given session are written; every other column is left unchanged. -/
def updateRowValidation (sid : Value) (mean std : ℚ) (rating : String)
    (r : Row) : Row :=
  if valueAt r "session_id" = sid then
    setField
      (setField (setField r "validation_mean_deg" (.q mean))
        "validation_std_deg" (.q std))
      "validation_rating" (.s rating)
  else r

/-- Modelled from the spec: apply the validation update across the stored
calibration rows. -/
def saveValidation (s : List Row) (sid : Value) (mean std : ℚ)
    (rating : String) : List Row :=
  s.map (updateRowValidation sid mean std rating)

/-!  Helper lemmas. -/

/-- Lookup of a key absent from an association list yields `none`
(the meaning of Python `dict.get` on a missing key). -/
theorem dictGet_eq_none {α : Type} :
    ∀ (d : List (String × α)) (k : String),
      k ∉ d.map Prod.fst → dictGet d k = none := by
  intro d
  induction d with
  | nil => intro k _; rfl
  | cons p rest ih =>
    intro k hk
    obtain ⟨k1, v1⟩ := p
    simp only [List.map_cons, List.mem_cons, not_or] at hk
    obtain ⟨hne, hrest⟩ := hk
    simp only [dictGet]
    rw [if_neg fun h => hne h.symm]
    exact ih k hrest

/-- A successful Gaussian elimination on `n` unknowns returns exactly `n`
solution entries. -/
theorem gaussSolve_length :
    ∀ (n : Nat) (rows : List (List ℚ)) (xs : List ℚ),
      gaussSolve n rows = some xs → xs.length = n := by
  intro n
  induction n with
  | zero =>
    intro rows xs h
    simp only [gaussSolve] at h
    cases h
    rfl
  | succ n ih =>
    intro rows xs h
    simp only [gaussSolve] at h
    rw [Option.bind_eq_some] at h
    obtain ⟨pr, _, h⟩ := h
    rw [Option.map_eq_some'] at h
    obtain ⟨ys, hys, hx⟩ := h
    subst hx
    simp [ih _ _ hys]

/-!  Claim theorems. -/

/-- C2: for every input set of fewer than 9 calibration points (9 being the
configured minimum), `fitCalibration` returns a `CalibrationError` —
specifically the insufficient-points error — and no model is stored: the
model store is left exactly as it was. -/
theorem fitCalibration_insufficient_points :
    MIN_CALIBRATION_POINTS = 9 ∧
    ∀ points : List CalibPoint, points.length < 9 →
      fitCalibration points = .error .insufficientPoints ∧
      ∀ store : List CalibrationModel, fitAndStore store points = store := by
  refine ⟨rfl, fun points h => ?_⟩
  have hfit : fitCalibration points = .error .insufficientPoints := by
    unfold fitCalibration
    rw [if_pos (show points.length < MIN_CALIBRATION_POINTS from h)]
  refine ⟨hfit, fun store => ?_⟩
  unfold fitAndStore
  rw [hfit]

/-- C2 witness: the empty point set is rejected and leaves the empty store
unchanged. -/
theorem fitCalibration_insufficient_points_witness :
    fitCalibration [] = .error .insufficientPoints ∧
    fitAndStore [] [] = [] :=
  ⟨(fitCalibration_insufficient_points.2 [] (by decide)).1,
    (fitCalibration_insufficient_points.2 [] (by decide)).2 []⟩

/-- C3: the stored polynomial degree is fixed at 2 (the `poly_degree` column
is required with default 2), the degree-2 expansion of a 4-component raw
feature vector has exactly 15 terms — the constant 1, the 4 linear terms and
the 10 pairwise/quadratic products — and every model the engine fits carries
coefficient vectors of exactly 15 entries for X and for Y. -/
theorem calibration_poly_degree2_15_terms :
    ((CalibrationEyeTracking.columns.find? (fun c => c.name == "poly_degree")).map
        (fun c => (c.default, requiredCol c)) =
      some (some (.const (.i 2)), true)) ∧
    (∀ lx ly rx ry : ℚ,
      polyFeatures2 [lx, ly, rx, ry] =
        1 :: [lx, ly, rx, ry] ++
          [lx*lx, lx*ly, lx*rx, lx*ry, ly*ly, ly*rx, ly*ry, rx*rx, rx*ry, ry*ry] ∧
      (polyFeatures2 [lx, ly, rx, ry]).length = 15) ∧
    (∀ (points : List CalibPoint) (m : CalibrationModel),
      fitCalibration points = .ok m →
      m.coeff_x.length = 15 ∧ m.coeff_y.length = 15 ∧ m.poly_degree = 2) := by
  refine ⟨by decide, fun lx ly rx ry => ⟨rfl, rfl⟩, fun points m h => ?_⟩
  unfold fitCalibration at h
  split at h
  · exact Except.noConfusion h
  · split at h
    next cx cy hcx hcy =>
      cases h
      exact ⟨gaussSolve_length _ _ _ hcx, gaussSolve_length _ _ _ hcy, rfl⟩
    next => exact Except.noConfusion h

/-- C4: the validation rating is determined by the mean angular error with
thresholds 1.0° and 2.0°, and is always one of GOOD, ACCEPTABLE, POOR. -/
theorem validation_rating_policy :
    ∀ mean : ℚ,
      (rateMeanError mean = Rating.GOOD ↔ mean < 1) ∧
      (rateMeanError mean = Rating.ACCEPTABLE ↔ 1 ≤ mean ∧ mean < 2) ∧
      (rateMeanError mean = Rating.POOR ↔ 2 ≤ mean) ∧
      (rateMeanError mean = Rating.GOOD ∨ rateMeanError mean = Rating.ACCEPTABLE ∨
        rateMeanError mean = Rating.POOR) := by
  intro mean
  unfold rateMeanError
  split_ifs with h1 h2
  · refine ⟨by simp [h1], ⟨(fun h => nomatch h), ?_⟩, ⟨(fun h => nomatch h), ?_⟩, Or.inl rfl⟩
    · rintro ⟨ha, -⟩
      exact absurd h1 (not_lt.mpr ha)
    · intro ha
      exact absurd h1 (not_lt.mpr (by linarith))
  · refine ⟨⟨(fun h => nomatch h), ?_⟩, by simp [not_lt.mp h1, h2],
      ⟨(fun h => nomatch h), ?_⟩, Or.inr (Or.inl rfl)⟩
    · intro hlt
      exact absurd hlt h1
    · intro hge
      exact absurd h2 (not_lt.mpr hge)
  · refine ⟨⟨(fun h => nomatch h), ?_⟩, ⟨(fun h => nomatch h), ?_⟩,
      by simp [not_lt.mp h2], Or.inr (Or.inr rfl)⟩
    · intro hlt
      exact absurd hlt h1
    · rintro ⟨-, hlt⟩
      exact absurd hlt h2

/-- C4 witness: a mean of 0.9° rates GOOD, 1.5° rates ACCEPTABLE and 2.5°
rates POOR. -/
theorem validation_rating_policy_witness :
    rateMeanError (9/10) = Rating.GOOD ∧
    rateMeanError (3/2) = Rating.ACCEPTABLE ∧
    rateMeanError (5/2) = Rating.POOR :=
  ⟨(validation_rating_policy (9/10)).1.mpr (by norm_num),
    (validation_rating_policy (3/2)).2.1.mpr (by norm_num),
    (validation_rating_policy (5/2)).2.2.1.mpr (by norm_num)⟩

/-- C5: the quality-threshold table contains exactly the five configured
entries: accelerometer minimum 0.5, gyroscope minimum 0.5, EEG maximum
artifact percentage 30, eye-tracking minimum confidence 0.6 and heart-rate
minimum quality tier 1. -/
theorem quality_threshold_table_exact :
    QUALITY_THRESHOLDS.map Prod.fst =
      ["accelerometer_min", "gyroscope_min", "eeg_max_artifact_percent",
        "eye_tracking_min_confidence", "heart_rate_min_quality"] ∧
    QUALITY_THRESHOLDS.length = 5 ∧
    dictGet QUALITY_THRESHOLDS "accelerometer_min" = some (1/2) ∧
    dictGet QUALITY_THRESHOLDS "gyroscope_min" = some (1/2) ∧
    dictGet QUALITY_THRESHOLDS "eeg_max_artifact_percent" = some 30 ∧
    dictGet QUALITY_THRESHOLDS "eye_tracking_min_confidence" = some (3/5) ∧
    dictGet QUALITY_THRESHOLDS "heart_rate_min_quality" = some 1 := by
  with_unfolding_all decide

/-- C7: for every sensor type, a reading whose quality metric equals the
configured threshold exactly is classified valid (the comparison is
inclusive), and classification is a total function whose returned score is
always the measured value, whatever the input. -/
theorem classify_inclusive_threshold :
    (∀ t : SensorType, classify t (thresholdOf t) = (thresholdOf t, true)) ∧
    (∀ (t : SensorType) (v : ℚ), (classify t v).1 = v) ∧
    (∀ (t : SensorType) (v : ℚ), t ≠ SensorType.eeg → v < thresholdOf t →
      (classify t v).2 = false) ∧
    (∀ v : ℚ, thresholdOf SensorType.eeg < v →
      (classify SensorType.eeg v).2 = false) := by
  refine ⟨?_, ?_, ?_, ?_⟩
  · intro t
    cases t <;> simp [classify]
  · intro t v
    cases t <;> rfl
  · intro t v ht hlt
    cases t
    case eeg => exact absurd rfl ht
    all_goals
      show decide (thresholdOf _ ≤ v) = false
      rw [decide_eq_false_iff_not]
      exact not_le.mpr hlt
  · intro v hlt
    show decide (v ≤ thresholdOf SensorType.eeg) = false
    rw [decide_eq_false_iff_not]
    exact not_le.mpr hlt

/-- C7 witness: an accelerometer reading below its minimum quality and an
EEG reading above its maximum artifact percentage are both marked invalid
while keeping their measured value as the score. -/
theorem classify_inclusive_threshold_witness :
    (classify SensorType.accelerometer (1/4)).2 = false ∧
    (classify SensorType.eeg 31).2 = false :=
  ⟨classify_inclusive_threshold.2.2.1 SensorType.accelerometer (1/4)
      (by decide) (by with_unfolding_all decide),
    classify_inclusive_threshold.2.2.2 31 (by with_unfolding_all decide)⟩

/-- C8: the configured sampling rate is 60 Hz for eye-tracking and 250 Hz
for EEG, and `get_sensor_rate` returns exactly those values. -/
theorem sensor_rates_eye_tracking_eeg :
    get_sensor_rate "eye_tracking" = some 60 ∧
    get_sensor_rate "eeg" = some 250 ∧
    dictGet SENSOR_RATES "eye_tracking" = some 60 ∧
    dictGet SENSOR_RATES "eeg" = some 250 := by
  decide

/-- C9: for every sensor name that is not a key of the configuration tables,
the helpers fail cleanly without raising: `get_sensor_rate` returns `None`,
`get_sensor_config` returns the empty dict and `is_sensor_enabled` returns
`False`. -/
theorem config_helpers_unknown_sensor :
    (∀ name : String, name ∉ SENSOR_RATES.map Prod.fst →
      get_sensor_rate name = none) ∧
    (∀ name : String, name ∉ SENSOR_CONFIG.map Prod.fst →
      get_sensor_config name = [] ∧ is_sensor_enabled name = false) := by
  constructor
  · intro name h
    exact dictGet_eq_none _ _ h
  · intro name h
    have hc : get_sensor_config name = [] := by
      unfold get_sensor_config
      rw [dictGet_eq_none _ _ h]
      rfl
    refine ⟨hc, ?_⟩
    unfold is_sensor_enabled
    rw [hc]
    rfl

/-- C9 witness: the unknown sensor name "pulse" gets `none`, the empty
configuration and `false`. -/
theorem config_helpers_unknown_sensor_witness :
    get_sensor_rate "pulse" = none ∧
    get_sensor_config "pulse" = [] ∧
    is_sensor_enabled "pulse" = false :=
  ⟨config_helpers_unknown_sensor.1 "pulse" (by decide),
    (config_helpers_unknown_sensor.2 "pulse" (by decide)).1,
    (config_helpers_unknown_sensor.2 "pulse" (by decide)).2⟩

/-- All-zero calibration input used to exercise a successful fit. -/
def zeroPoint : CalibPoint := { lx := 0, ly := 0, rx := 0, ry := 0, tx := 0, ty := 0 }

/-- Nine copies of the zero calibration point (a full 3×3 set). -/
def ninePoints : List CalibPoint := List.replicate 9 zeroPoint

/-- The model the engine fits on `ninePoints`. -/
def ninePointsModel : CalibrationModel :=
  { coeff_x := List.replicate 15 0
    coeff_y := List.replicate 15 0
    intercept_x := 0
    intercept_y := 0
    poly_degree := 2
    calib_features := List.replicate 9 [0, 0, 0, 0]
    calib_targets := List.replicate 9 [0, 0] }

set_option maxRecDepth 10000 in
/-- C3 witness: a successful fit on nine concrete points yields 15-entry
coefficient vectors and degree 2. -/
theorem calibration_poly_degree2_15_terms_witness :
    ninePointsModel.coeff_x.length = 15 ∧
    ninePointsModel.coeff_y.length = 15 ∧
    ninePointsModel.poly_degree = 2 :=
  calibration_poly_degree2_15_terms.2.2 ninePoints ninePointsModel
    (by with_unfolding_all rfl)

/-!  Generic consequences of the insert semantics. -/

/-- A successful insert appends the materialised row and certifies that none
of the three constraint checks fired. -/
theorem insertRow_some {t : TableSchema} {s s' : List Row} {r : Row} {fresh : Nat}
    (h : insertRow t s r fresh = some s') :
    s' = s ++ [materialize t r fresh] ∧
    violatesNotNull t (materialize t r fresh) = false ∧
    pkConflict t s (materialize t r fresh) = false ∧
    uniqueConflict t s (materialize t r fresh) = false := by
  unfold insertRow at h
  split at h
  next => exact Option.noConfusion h
  next hcond =>
    cases h
    simp only [Bool.or_eq_true, not_or, Bool.not_eq_true] at hcond
    exact ⟨rfl, hcond.1.1, hcond.1.2, hcond.2⟩

/-- Any stored table state has pairwise distinct primary-key tuples. -/
theorem stored_pairwise_pk {t : TableSchema} {s : List Row} (h : Stored t s) :
    s.Pairwise (fun a c => pkOf t a ≠ pkOf t c) := by
  induction h with
  | empty => exact List.Pairwise.nil
  | insert hprev heq ih =>
    obtain ⟨rfl, -, hpk, -⟩ := insertRow_some heq
    rw [List.pairwise_append]
    refine ⟨ih, List.pairwise_singleton _ _, ?_⟩
    intro a ha c hc
    rw [List.mem_singleton] at hc
    subst hc
    unfold pkConflict at hpk
    rw [List.any_eq_false] at hpk
    simpa using hpk a ha

/-- Any stored table state has pairwise distinct values in a required
UNIQUE column. -/
theorem stored_pairwise_unique {t : TableSchema} {c : Column}
    (hc : c ∈ t.columns) (hu : c.unique = true) (hreq : requiredCol c = true)
    {s : List Row} (h : Stored t s) :
    s.Pairwise (fun a e => valueAt a c.name ≠ valueAt e c.name) := by
  induction h with
  | empty => exact List.Pairwise.nil
  | @insert sprev stot r fresh hprev heq ih =>
    obtain ⟨rfl, hnn, -, hun⟩ := insertRow_some heq
    rw [List.pairwise_append]
    refine ⟨ih, List.pairwise_singleton _ _, ?_⟩
    intro a ha e he
    rw [List.mem_singleton] at he
    subst he
    unfold violatesNotNull at hnn
    rw [List.any_eq_false] at hnn
    have hnnc := hnn c hc
    rw [hreq, Bool.true_and, decide_eq_true_eq] at hnnc
    unfold uniqueConflict at hun
    rw [List.any_eq_false] at hun
    have hunc := hun c hc
    have hd : decide (valueAt (materialize t r fresh) c.name = Value.null) = false := by
      rw [decide_eq_false_iff_not]
      exact hnnc
    rw [hu, Bool.true_and, hd, Bool.not_false, Bool.true_and, Bool.not_eq_true,
      List.any_eq_false] at hunc
    simpa using hunc a ha

/-- Distinct positions of a pairwise-distinct list map to distinct images. -/
theorem pairwise_ne_get {α β : Type} (f : α → β) {l : List α}
    (h : l.Pairwise (fun a c => f a ≠ f c)) :
    ∀ (i j : Nat) (hi : i < l.length) (hj : j < l.length), i ≠ j →
      f (l.get ⟨i, hi⟩) ≠ f (l.get ⟨j, hj⟩) := by
  intro i j hi hj hij
  rcases Nat.lt_or_ge i j with hlt | hge
  · exact List.pairwise_iff_getElem.mp h i j hi hj hlt
  · have hlt : j < i := Nat.lt_of_le_of_ne hge fun e => hij e.symm
    exact fun e => (List.pairwise_iff_getElem.mp h j i hj hi hlt) e.symm

/-- No two stored rows of a sensor table share both their timestamp and
their session identifier. -/
def SensorKeyUnique (t : TableSchema) : Prop :=
  ∀ s : List Row, Stored t s →
    ∀ (i j : Nat) (hi : i < s.length) (hj : j < s.length), i ≠ j →
      ¬(valueAt (s.get ⟨i, hi⟩) "time" = valueAt (s.get ⟨j, hj⟩) "time" ∧
        valueAt (s.get ⟨i, hi⟩) "session_id" = valueAt (s.get ⟨j, hj⟩) "session_id")

/-- No two stored rows of the processed-metrics table share timestamp,
session identifier and metric type all at once. -/
def MetricKeyUnique (t : TableSchema) : Prop :=
  ∀ s : List Row, Stored t s →
    ∀ (i j : Nat) (hi : i < s.length) (hj : j < s.length), i ≠ j →
      ¬(valueAt (s.get ⟨i, hi⟩) "time" = valueAt (s.get ⟨j, hj⟩) "time" ∧
        valueAt (s.get ⟨i, hi⟩) "session_id" = valueAt (s.get ⟨j, hj⟩) "session_id" ∧
        valueAt (s.get ⟨i, hi⟩) "metric_type" = valueAt (s.get ⟨j, hj⟩) "metric_type")

/-- A table whose primary-key tuple is (time, session_id) keeps that pair
unique across stored rows. -/
theorem sensorKeyUnique_of (t : TableSchema)
    (hpk : ∀ r : Row, pkOf t r = [valueAt r "time", valueAt r "session_id"]) :
    SensorKeyUnique t := by
  intro s hs i j hi hj hij hboth
  obtain ⟨h1, h2⟩ := hboth
  have hp := pairwise_ne_get (pkOf t) (stored_pairwise_pk hs) i j hi hj hij
  apply hp
  rw [hpk, hpk, h1, h2]

/-- A table whose primary-key tuple is (time, session_id, metric_type)
keeps that triple unique across stored rows. -/
theorem metricKeyUnique_of (t : TableSchema)
    (hpk : ∀ r : Row, pkOf t r =
      [valueAt r "time", valueAt r "session_id", valueAt r "metric_type"]) :
    MetricKeyUnique t := by
  intro s hs i j hi hj hij hall
  obtain ⟨h1, h2, h3⟩ := hall
  have hp := pairwise_ne_get (pkOf t) (stored_pairwise_pk hs) i j hi hj hij
  apply hp
  rw [hpk, hpk, h1, h2, h3]

/-- C1: for every raw sensor reading table the declared key is the pair
(timestamp, session identifier), for the processed-metrics table it is the
triple (timestamp, session identifier, metric_type), and under the insert
semantics those keys are unique: no two stored rows of the same sensor type
share a timestamp within a session. -/
theorem sensor_table_key_uniqueness :
    (pkCols SensorAccelerometer = ["time", "session_id"] ∧
      pkCols SensorGyroscope = ["time", "session_id"] ∧
      pkCols SensorEEG = ["time", "session_id"] ∧
      pkCols SensorEyeTracking = ["time", "session_id"] ∧
      pkCols SensorHeartRate = ["time", "session_id"] ∧
      pkCols SensorOximeter = ["time", "session_id"] ∧
      pkCols MetricsProcessed = ["time", "session_id", "metric_type"]) ∧
    SensorKeyUnique SensorAccelerometer ∧
    SensorKeyUnique SensorGyroscope ∧
    SensorKeyUnique SensorEEG ∧
    SensorKeyUnique SensorEyeTracking ∧
    SensorKeyUnique SensorHeartRate ∧
    SensorKeyUnique SensorOximeter ∧
    MetricKeyUnique MetricsProcessed :=
  ⟨by decide,
    sensorKeyUnique_of SensorAccelerometer (fun r => rfl),
    sensorKeyUnique_of SensorGyroscope (fun r => rfl),
    sensorKeyUnique_of SensorEEG (fun r => rfl),
    sensorKeyUnique_of SensorEyeTracking (fun r => rfl),
    sensorKeyUnique_of SensorHeartRate (fun r => rfl),
    sensorKeyUnique_of SensorOximeter (fun r => rfl),
    metricKeyUnique_of MetricsProcessed (fun r => rfl)⟩

/-- Supplied fields of a first demonstration accelerometer reading. -/
def accelRawA : Row :=
  [("time", .i 0), ("session_id", .uuidv 1), ("x", .q 0), ("y", .q 0), ("z", .q 0)]

/-- Supplied fields of a second demonstration accelerometer reading at the
same timestamp in a different session. -/
def accelRawB : Row :=
  [("time", .i 0), ("session_id", .uuidv 2), ("x", .q 0), ("y", .q 0), ("z", .q 0)]

/-- A two-row accelerometer table state. -/
def accelDemo : List Row :=
  [materialize SensorAccelerometer accelRawA 0,
    materialize SensorAccelerometer accelRawB 0]

/-- The two-row accelerometer state is reachable through inserts. -/
theorem accelDemo_stored : Stored SensorAccelerometer accelDemo :=
  @Stored.insert SensorAccelerometer
    [materialize SensorAccelerometer accelRawA 0] accelDemo accelRawB 0
    (@Stored.insert SensorAccelerometer []
      [materialize SensorAccelerometer accelRawA 0] accelRawA 0
      (@Stored.empty SensorAccelerometer) (by decide))
    (by decide)

/-- C1 witness: in the concrete two-row accelerometer state, the rows (which
share their timestamp) cannot also share their session identifier. -/
theorem sensor_table_key_uniqueness_witness :
    ¬(valueAt (accelDemo.get ⟨0, by decide⟩) "time" =
        valueAt (accelDemo.get ⟨1, by decide⟩) "time" ∧
      valueAt (accelDemo.get ⟨0, by decide⟩) "session_id" =
        valueAt (accelDemo.get ⟨1, by decide⟩) "session_id") :=
  sensor_table_key_uniqueness.2.1 accelDemo accelDemo_stored 0 1
    (by decide) (by decide) (by decide)

/-- Overwriting one field leaves lookups of every other field unchanged. -/
theorem dictGet_setField_ne (r : Row) (n nq : String) (v : Value) (h : nq ≠ n) :
    dictGet (setField r n v) nq = dictGet r nq := by
  induction r with
  | nil => rfl
  | cons p rest ih =>
    obtain ⟨k, w⟩ := p
    by_cases hk : k = n
    · subst hk
      show dictGet ((if k = k then (k, v) else (k, w)) :: setField rest k v) nq =
        dictGet ((k, w) :: rest) nq
      rw [if_pos rfl]
      simp only [dictGet]
      rw [if_neg (fun e : k = nq => h e.symm), if_neg (fun e : k = nq => h e.symm)]
      exact ih
    · show dictGet ((if k = n then (k, v) else (k, w)) :: setField rest n v) nq =
        dictGet ((k, w) :: rest) nq
      rw [if_neg hk]
      simp only [dictGet]
      by_cases hq : k = nq
      · rw [if_pos hq, if_pos hq]
      · rw [if_neg hq, if_neg hq]
        exact ih

/-- The session_id column of the calibration table. -/
def sessionIdColumn : Column :=
  { name := "session_id", ctype := .UUIDT, nullable := false, unique := true }

/-- C6: at most one calibration model exists per session — the calibration
table declares session_id required and UNIQUE, and any two distinct stored
rows carry distinct session identifiers; the coefficient vectors, intercepts
and degree are required columns that a validation pass never changes, while
the validation statistics are optional columns appended later; the
validation pass rewrites rows in place, never adding or removing any. -/
theorem calibration_model_per_session :
    (((CalibrationEyeTracking.columns.find? (fun c => c.name == "session_id")).map
        (fun c => (c.unique, requiredCol c)) = some (true, true)) ∧
      ((CalibrationEyeTracking.columns.find? (fun c => c.name == "coeff_x")).map
        requiredCol = some true) ∧
      ((CalibrationEyeTracking.columns.find? (fun c => c.name == "coeff_y")).map
        requiredCol = some true) ∧
      ((CalibrationEyeTracking.columns.find? (fun c => c.name == "intercept_x")).map
        requiredCol = some true) ∧
      ((CalibrationEyeTracking.columns.find? (fun c => c.name == "intercept_y")).map
        requiredCol = some true) ∧
      ((CalibrationEyeTracking.columns.find? (fun c => c.name == "poly_degree")).map
        requiredCol = some true) ∧
      ((CalibrationEyeTracking.columns.find? (fun c => c.name == "validation_mean_deg")).map
        requiredCol = some false) ∧
      ((CalibrationEyeTracking.columns.find? (fun c => c.name == "validation_std_deg")).map
        requiredCol = some false) ∧
      ((CalibrationEyeTracking.columns.find? (fun c => c.name == "validation_rating")).map
        requiredCol = some false)) ∧
    (∀ s : List Row, Stored CalibrationEyeTracking s →
      ∀ (i j : Nat) (hi : i < s.length) (hj : j < s.length), i ≠ j →
        valueAt (s.get ⟨i, hi⟩) "session_id" ≠ valueAt (s.get ⟨j, hj⟩) "session_id") ∧
    (∀ (sid : Value) (mean std : ℚ) (rating : String) (r : Row) (n : String),
      n ≠ "validation_mean_deg" → n ≠ "validation_std_deg" →
      n ≠ "validation_rating" →
      valueAt (updateRowValidation sid mean std rating r) n = valueAt r n) ∧
    (∀ (s : List Row) (sid : Value) (mean std : ℚ) (rating : String),
      (saveValidation s sid mean std rating).length = s.length) := by
  refine ⟨by decide, ?_, ?_, ?_⟩
  · intro s hs i j hi hj hij
    exact pairwise_ne_get (fun r => valueAt r "session_id")
      (stored_pairwise_unique
        (show sessionIdColumn ∈ CalibrationEyeTracking.columns by decide)
        (by decide) (by decide) hs) i j hi hj hij
  · intro sid mean std rating r n h1 h2 h3
    unfold updateRowValidation
    split
    · unfold valueAt
      rw [dictGet_setField_ne _ _ _ _ h3, dictGet_setField_ne _ _ _ _ h2,
        dictGet_setField_ne _ _ _ _ h1]
    · rfl
  · intro s sid mean std rating
    simp [saveValidation]

/-- Supplied fields of a first demonstration calibration model row. -/
def calibRawA : Row :=
  [("session_id", .uuidv 1), ("timestamp", .i 0),
    ("coeff_x", .jlist (List.replicate 15 0)), ("coeff_y", .jlist (List.replicate 15 0)),
    ("intercept_x", .q 0), ("intercept_y", .q 0)]

/-- Supplied fields of a second demonstration calibration model row for a
different session. -/
def calibRawB : Row :=
  [("session_id", .uuidv 2), ("timestamp", .i 1),
    ("coeff_x", .jlist (List.replicate 15 0)), ("coeff_y", .jlist (List.replicate 15 0)),
    ("intercept_x", .q 0), ("intercept_y", .q 0)]

/-- A two-row calibration table state. -/
def calibDemo : List Row :=
  [materialize CalibrationEyeTracking calibRawA 10,
    materialize CalibrationEyeTracking calibRawB 11]

/-- The two-row calibration state is reachable through inserts. -/
theorem calibDemo_stored : Stored CalibrationEyeTracking calibDemo :=
  @Stored.insert CalibrationEyeTracking
    [materialize CalibrationEyeTracking calibRawA 10] calibDemo calibRawB 11
    (@Stored.insert CalibrationEyeTracking []
      [materialize CalibrationEyeTracking calibRawA 10] calibRawA 10
      (@Stored.empty CalibrationEyeTracking) (by with_unfolding_all decide))
    (by with_unfolding_all decide)

/-- C6 witness: the two concrete stored calibration rows carry distinct
session identifiers, and a validation update leaves a row's coefficient
vector untouched. -/
theorem calibration_model_per_session_witness :
    valueAt (calibDemo.get ⟨0, by decide⟩) "session_id" ≠
      valueAt (calibDemo.get ⟨1, by decide⟩) "session_id" ∧
    valueAt (updateRowValidation (.uuidv 1) 0 0 "GOOD"
        (materialize CalibrationEyeTracking calibRawA 10)) "coeff_x" =
      valueAt (materialize CalibrationEyeTracking calibRawA 10) "coeff_x" :=
  ⟨calibration_model_per_session.2.1 calibDemo calibDemo_stored 0 1
      (by decide) (by decide) (by decide),
    calibration_model_per_session.2.2.1 (.uuidv 1) 0 0 "GOOD"
      (materialize CalibrationEyeTracking calibRawA 10) "coeff_x"
      (by decide) (by decide) (by decide)⟩

/-- Lookup in a materialised row is the `fieldValue` of the first column
with the looked-up name. -/
theorem dictGet_materialize (cols : List Column) (r : Row) (fresh : Nat)
    (n : String) :
    dictGet (cols.map (fun c => (c.name, fieldValue c r fresh))) n =
      (cols.find? (fun c => c.name == n)).map (fun c => fieldValue c r fresh) := by
  induction cols with
  | nil => rfl
  | cons c cs ih =>
    show dictGet ((c.name, fieldValue c r fresh) ::
        cs.map (fun c2 => (c2.name, fieldValue c2 r fresh))) n = _
    simp only [dictGet]
    by_cases hn : c.name = n
    · rw [if_pos hn, List.find?_cons_of_pos _ (by simp [hn])]
      rfl
    · rw [if_neg hn, List.find?_cons_of_neg _ (by simp [hn])]
      exact ih

/-- A column whose value is not supplied materialises to its constant
default. -/
theorem fieldValue_default (c : Column) (r : Row) (fresh : Nat) (v : Value)
    (h : dictGet r c.name = none) (hd : c.default = some (.const v)) :
    fieldValue c r fresh = v := by
  unfold fieldValue
  rw [h, hd]

/-- The shared `is_valid` column declaration of the sensor and metrics
tables. -/
def isValidColumn : Column :=
  { name := "is_valid", ctype := .BooleanT, default := some (.const (.b true)) }

/-- A table whose first `is_valid` column is `isValidColumn` materialises
rows that omit `is_valid` with the value true. -/
theorem materialize_is_valid_default (t : TableSchema)
    (hfind : t.columns.find? (fun c => c.name == "is_valid") = some isValidColumn) :
    ∀ (r : Row) (fresh : Nat), dictGet r "is_valid" = none →
      valueAt (materialize t r fresh) "is_valid" = .b true := by
  intro r fresh h
  unfold valueAt materialize
  rw [dictGet_materialize, hfind]
  simp only [Option.map_some', Option.getD_some]
  exact fieldValue_default isValidColumn r fresh (Value.b true) h rfl

/-- A table's `is_valid` column defaults to true, and a row inserted without
an explicit `is_valid` value is stored with `is_valid` true. -/
def ValidDefaultsTrue (t : TableSchema) : Prop :=
  ((t.columns.find? (fun c => c.name == "is_valid")).map (fun c => c.default) =
    some (some (.const (.b true)))) ∧
  ∀ (r : Row) (fresh : Nat), dictGet r "is_valid" = none →
    valueAt (materialize t r fresh) "is_valid" = .b true

/-- C10: in every sensor reading table and in the processed-metrics table,
the `is_valid` column defaults to True — a reading stored without an
explicit validity verdict is treated as valid. -/
theorem is_valid_default_true :
    ValidDefaultsTrue SensorAccelerometer ∧
    ValidDefaultsTrue SensorGyroscope ∧
    ValidDefaultsTrue SensorEEG ∧
    ValidDefaultsTrue SensorEyeTracking ∧
    ValidDefaultsTrue SensorHeartRate ∧
    ValidDefaultsTrue SensorOximeter ∧
    ValidDefaultsTrue MetricsProcessed :=
  ⟨⟨by decide, materialize_is_valid_default SensorAccelerometer (by decide)⟩,
    ⟨by decide, materialize_is_valid_default SensorGyroscope (by decide)⟩,
    ⟨by decide, materialize_is_valid_default SensorEEG (by decide)⟩,
    ⟨by decide, materialize_is_valid_default SensorEyeTracking (by decide)⟩,
    ⟨by decide, materialize_is_valid_default SensorHeartRate (by decide)⟩,
    ⟨by decide, materialize_is_valid_default SensorOximeter (by decide)⟩,
    ⟨by decide, materialize_is_valid_default MetricsProcessed (by decide)⟩⟩

/-- C10 witness: a row materialised from no supplied fields carries
`is_valid` true, in the accelerometer table and in the metrics table. -/
theorem is_valid_default_true_witness :
    valueAt (materialize SensorAccelerometer [] 0) "is_valid" = .b true ∧
    valueAt (materialize MetricsProcessed [] 0) "is_valid" = .b true :=
  ⟨is_valid_default_true.1.2 [] 0 rfl,
    is_valid_default_true.2.2.2.2.2.2.2 [] 0 rfl⟩
